import Mathlib

/-!
Verification development for the zX12 Python binding
(src/python/zx12/zx12.py).

The binding wraps a native shared library through ctypes.  The native
library itself is outside the Python sources, so it is modelled as an
oracle: a structure of functions standing for the C entry points.  The
Python runtime built-ins the binding calls (bytes.decode, json.loads,
str.encode) are likewise external and appear as oracle functions.

Modelling conventions:
  - a ctypes c_char_p result is an Option over a byte list, with none
    standing for NULL; Python truthiness of such a value is false for
    NULL and for an empty byte string;
  - a ctypes c_void_p is an Option Nat, with none standing for NULL
    (ctypes reads NULL back as None);
  - the message returned by zx12_get_error_message is modelled already
    decoded, as an Option String, none standing for NULL; truthiness of
    the bytes object is preserved because an empty byte string decodes
    to the empty string and both are falsy;
  - raising an exception is modelled by the Outcome type: zx12Err is a
    raised ZX12Error carrying its message, pyExc is any other Python
    exception propagating out of the method;
  - each method returns a Run record that also logs the observable
    native effects the claims are about: whether the native parse entry
    point was invoked, and the handles passed to zx12_free_output.
-/

/-- A Python bytes value, one Nat per byte. -/
abbrev Bytes := List Nat

/-- Minimal JSON value type, the codomain of json.loads. -/
inductive JsonVal where
  | jnull : JsonVal
  | jbool : Bool → JsonVal
  | jnum : Int → JsonVal
  | jstr : String → JsonVal
  | jarr : List JsonVal → JsonVal
  | jobj : List (String × JsonVal) → JsonVal

/-- Oracle for the native zX12 shared library (zx12.h entry points used
by the binding).  Parse entry points return the c_int result code paired
with the output handle written through the byref pointer; per the data
model a handle is a Nat.  zx12_load_schema returns the result code and
the schema pointer it wrote, none when it wrote NULL. -/
structure NativeLib where
  zx12_process_document : String → String → Int × Nat
  zx12_process_from_memory : Bytes → String → Int × Nat
  zx12_process_document_with_schema : String → Option Nat → Int × Nat
  zx12_process_from_memory_with_schema : Bytes → Option Nat → Int × Nat
  zx12_get_output : Nat → Option Bytes
  zx12_get_error_message : Int → Option String
  zx12_load_schema : String → Int × Option Nat

/-- Oracle for the Python runtime built-ins the binding calls.
utf8Encode models str.encode (total), utf8Decode models bytes.decode
with strict errors (none = UnicodeDecodeError raised), jsonLoads models
json.loads (none = JSONDecodeError raised). -/
structure PyRuntime where
  utf8Encode : String → Bytes
  utf8Decode : Bytes → Option String
  jsonLoads : String → Option JsonVal

/-- State of a Schema wrapper object: fields schema_ptr and _freed of
class Schema (zx12.py lines 13-45). -/
structure SchemaObj where
  schema_ptr : Option Nat
  _freed : Bool

/-- Outcome of one method call: normal return of a parsed JSON value,
a raised ZX12Error with its message, or another Python exception. -/
inductive Outcome where
  | ret : JsonVal → Outcome
  | zx12Err : String → Outcome
  | pyExc : String → Outcome

/-- One method invocation together with the native effects the claims
observe: parseCalled records whether a native parse entry point was
invoked, frees lists the handles passed to zx12_free_output in order. -/
structure Run where
  outcome : Outcome
  parseCalled : Bool
  frees : List Nat

/-- Schema.free (zx12.py lines 40-45): calls zx12_free_schema once iff
the object is not yet freed and its pointer is truthy, then sets _freed
and clears the pointer.  Returns the new state and the number of
zx12_free_schema calls made (0 or 1). -/
def Schema.free (s : SchemaObj) : SchemaObj × Nat :=
  if s._freed = false ∧ s.schema_ptr.isSome then
    ({ schema_ptr := none, _freed := true }, 1)
  else
    (s, 0)

/-- The ways a Schema release can be triggered: an explicit free() call,
the destructor __del__, or the context-manager __exit__.  All three
bodies just call self.free() (zx12.py lines 28-38). -/
inductive SchemaOp where
  | free : SchemaOp
  | del : SchemaOp
  | exitCtx : SchemaOp

/-- One release trigger applied to a Schema state; __del__ and __exit__
both delegate to free(). -/
def schemaStep (s : SchemaObj) : SchemaOp → SchemaObj × Nat
  | SchemaOp.free => Schema.free s
  | SchemaOp.del => Schema.free s
  | SchemaOp.exitCtx => Schema.free s

/-- Run a sequence of release triggers, totalling the native
zx12_free_schema calls. -/
def schemaRun (s : SchemaObj) : List SchemaOp → SchemaObj × Nat
  | [] => (s, 0)
  | op :: ops =>
    let r := schemaStep s op
    let r' := schemaRun r.1 ops
    (r'.1, r.2 + r'.2)

namespace ZX12

/-- Error codes of class ZX12 (zx12.py lines 51-61, must match zx12.h). -/
def SUCCESS : Int := 0

/-- Error code OUT_OF_MEMORY (zx12.py line 53). -/
def OUT_OF_MEMORY : Int := 1

/-- Error code INVALID_ISA (zx12.py line 54). -/
def INVALID_ISA : Int := 2

/-- Error code FILE_NOT_FOUND (zx12.py line 55). -/
def FILE_NOT_FOUND : Int := 3

/-- Error code PARSE_ERROR (zx12.py line 56). -/
def PARSE_ERROR : Int := 4

/-- Error code SCHEMA_LOAD_ERROR (zx12.py line 57). -/
def SCHEMA_LOAD_ERROR : Int := 5

/-- Error code UNKNOWN_HL_LEVEL (zx12.py line 58). -/
def UNKNOWN_HL_LEVEL : Int := 6

/-- Error code PATH_CONFLICT (zx12.py line 59). -/
def PATH_CONFLICT : Int := 7

/-- Error code INVALID_ARGUMENT (zx12.py line 60). -/
def INVALID_ARGUMENT : Int := 8

/-- Error code UNKNOWN_ERROR (zx12.py line 61). -/
def UNKNOWN_ERROR : Int := 99

/-- ZX12._get_error (zx12.py lines 167-170): fetch the native message
for a code; the Python conditional tests truthiness of the bytes, so
both NULL and an empty message fall back to the Unknown error string. -/
def _get_error (lib : NativeLib) (error_code : Int) : String :=
  match lib.zx12_get_error_message error_code with
  | none => "Unknown error " ++ toString error_code
  | some msg =>
    if msg.isEmpty then "Unknown error " ++ toString error_code else msg

/-- The shared try/finally output block of the four parse methods
(zx12.py lines 231-242, 278-289, 325-336, 363-374): fetch the output
string, raise ZX12Error when it is falsy (NULL or empty), decode UTF-8,
parse JSON; the finally clause frees the output handle on every path.
Returns the outcome and the zx12_free_output calls made. -/
def outputPhase (lib : NativeLib) (rt : PyRuntime) (output : Nat) :
    Outcome × List Nat :=
  let json_str := lib.zx12_get_output output
  let inner : Outcome :=
    match json_str with
    | none => Outcome.zx12Err "Failed to get output"
    | some bs =>
      if bs.isEmpty then Outcome.zx12Err "Failed to get output"
      else
        match rt.utf8Decode bs with
        | none => Outcome.pyExc "UnicodeDecodeError"
        | some json_data =>
          match rt.jsonLoads json_data with
          | none => Outcome.pyExc "JSONDecodeError"
          | some v => Outcome.ret v
  (inner, [output])

/-- ZX12.process_file (zx12.py lines 206-242). -/
def process_file (lib : NativeLib) (rt : PyRuntime)
    (x12_file_path schema_path : String) : Run :=
  let r := lib.zx12_process_document x12_file_path schema_path
  if r.1 ≠ SUCCESS then
    { outcome := Outcome.zx12Err (_get_error lib r.1),
      parseCalled := true, frees := [] }
  else
    let op := outputPhase lib rt r.2
    { outcome := op.1, parseCalled := true, frees := op.2 }

/-- ZX12.process_file_with_schema (zx12.py lines 244-289): rejects an
already-freed schema before calling the native parse. -/
def process_file_with_schema (lib : NativeLib) (rt : PyRuntime)
    (x12_file_path : String) (schema : SchemaObj) : Run :=
  if schema._freed then
    { outcome := Outcome.zx12Err "Schema has already been freed",
      parseCalled := false, frees := [] }
  else
    let r := lib.zx12_process_document_with_schema x12_file_path
      schema.schema_ptr
    if r.1 ≠ SUCCESS then
      { outcome := Outcome.zx12Err (_get_error lib r.1),
        parseCalled := true, frees := [] }
    else
      let op := outputPhase lib rt r.2
      { outcome := op.1, parseCalled := true, frees := op.2 }

/-- ZX12.process_string_with_schema (zx12.py lines 291-336): rejects an
already-freed schema, encodes the input, then parses from memory. -/
def process_string_with_schema (lib : NativeLib) (rt : PyRuntime)
    (x12_data : String) (schema : SchemaObj) : Run :=
  if schema._freed then
    { outcome := Outcome.zx12Err "Schema has already been freed",
      parseCalled := false, frees := [] }
  else
    let x12_bytes := rt.utf8Encode x12_data
    let r := lib.zx12_process_from_memory_with_schema x12_bytes
      schema.schema_ptr
    if r.1 ≠ SUCCESS then
      { outcome := Outcome.zx12Err (_get_error lib r.1),
        parseCalled := true, frees := [] }
    else
      let op := outputPhase lib rt r.2
      { outcome := op.1, parseCalled := true, frees := op.2 }

/-- ZX12.process_string (zx12.py lines 338-374). -/
def process_string (lib : NativeLib) (rt : PyRuntime)
    (x12_data schema_path : String) : Run :=
  let x12_bytes := rt.utf8Encode x12_data
  let r := lib.zx12_process_from_memory x12_bytes schema_path
  if r.1 ≠ SUCCESS then
    { outcome := Outcome.zx12Err (_get_error lib r.1),
      parseCalled := true, frees := [] }
  else
    let op := outputPhase lib rt r.2
    { outcome := op.1, parseCalled := true, frees := op.2 }

/-- ZX12.load_schema (zx12.py lines 177-204): on a non-SUCCESS native
code it raises ZX12Error with the cause appended; on SUCCESS it wraps
the written pointer in a fresh Schema object. -/
def load_schema (lib : NativeLib) (schema_path : String) :
    Except String SchemaObj :=
  let r := lib.zx12_load_schema schema_path
  if r.1 ≠ SUCCESS then
    Except.error ("Failed to load schema: " ++ _get_error lib r.1)
  else
    Except.ok { schema_ptr := r.2, _freed := false }

/-- The output-retrieval pipeline succeeds for handle h with value v:
the native output is a non-falsy byte string that decodes as UTF-8 and
parses as JSON to v. -/
def outputOk (lib : NativeLib) (rt : PyRuntime) (h : Nat) (v : JsonVal) :
    Prop :=
  ∃ bs json_data, lib.zx12_get_output h = some bs ∧ bs ≠ [] ∧
    rt.utf8Decode bs = some json_data ∧ rt.jsonLoads json_data = some v

end ZX12

/-- Stateful oracle for the native library: every entry point also
threads an abstract library state, so that purity (state independence
of results) can be an explicit hypothesis rather than baked into the
model.  Only the entry points process_string_with_schema touches are
included. -/
structure NativeLibSt (σ : Type) where
  zx12_process_from_memory_with_schema : σ → Bytes → Option Nat → σ × Int × Nat
  zx12_get_output : σ → Nat → σ × Option Bytes
  zx12_free_output : σ → Nat → σ
  zx12_get_error_message : σ → Int → σ × Option String

namespace ZX12

/-- ZX12._get_error (zx12.py lines 167-170) over the stateful oracle. -/
def _get_errorSt {σ : Type} (lib : NativeLibSt σ) (st : σ)
    (error_code : Int) : σ × String :=
  let m := lib.zx12_get_error_message st error_code
  match m.2 with
  | none => (m.1, "Unknown error " ++ toString error_code)
  | some msg =>
    (m.1,
      if msg.isEmpty then "Unknown error " ++ toString error_code else msg)

/-- ZX12.process_string_with_schema (zx12.py lines 291-336) over the
stateful oracle: identical control flow to process_string_with_schema,
with the library state threaded through each native call. -/
def process_string_with_schemaSt {σ : Type} (lib : NativeLibSt σ)
    (rt : PyRuntime) (st : σ) (x12_data : String) (schema : SchemaObj) :
    σ × Run :=
  if schema._freed then
    (st,
      { outcome := Outcome.zx12Err "Schema has already been freed",
        parseCalled := false, frees := [] })
  else
    let x12_bytes := rt.utf8Encode x12_data
    let r := lib.zx12_process_from_memory_with_schema st x12_bytes
      schema.schema_ptr
    if r.2.1 ≠ SUCCESS then
      let e := _get_errorSt lib r.1 r.2.1
      (e.1,
        { outcome := Outcome.zx12Err e.2, parseCalled := true, frees := [] })
    else
      let g := lib.zx12_get_output r.1 r.2.2
      let inner : Outcome :=
        match g.2 with
        | none => Outcome.zx12Err "Failed to get output"
        | some bs =>
          if bs.isEmpty then Outcome.zx12Err "Failed to get output"
          else
            match rt.utf8Decode bs with
            | none => Outcome.pyExc "UnicodeDecodeError"
            | some json_data =>
              match rt.jsonLoads json_data with
              | none => Outcome.pyExc "JSONDecodeError"
              | some v => Outcome.ret v
      (lib.zx12_free_output g.1 r.2.2,
        { outcome := inner, parseCalled := true, frees := [r.2.2] })

end ZX12

/-- Modelled from the spec: the native hierarchical parser (the engine
behind zx12_process_document and friends) is not under src/, only its
binding is.  An HL node per the spec data model: its own HL id, its
parent HL id (none for a root), and its level code. -/
structure HLNode where
  id : String
  parentId : Option String
  levelCode : String

/-- Modelled from the spec: pop entries off the hierarchy stack until
one satisfies p, returning the stack from that entry down, or none when
no entry satisfies p. -/
def popUntil (p : HLNode → Bool) : List HLNode → Option (List HLNode)
  | [] => none
  | n :: rest => if p n then some (n :: rest) else popUntil p rest

/-- Modelled from the spec: processing one HL segment against the
hierarchy stack.  A root HL (no declared parent) starts a fresh
hierarchy; otherwise the parser pops the stack until it finds the node
whose id matches the declared parent id and pushes the new node; when
no node on the stack matches, the parse signals UnknownHierarchyLevel,
surfaced through the binding as code ZX12.UNKNOWN_HL_LEVEL. -/
def hlStep (stack : List HLNode) (seg : HLNode) :
    Except Int (List HLNode) :=
  match seg.parentId with
  | none => Except.ok [seg]
  | some pid =>
    match popUntil (fun n => n.id == pid) stack with
    | none => Except.error ZX12.UNKNOWN_HL_LEVEL
    | some stack' => Except.ok (seg :: stack')

/-- Modelled from the spec: processing a list of HL segments in input
order, starting from a given hierarchy stack. -/
def hlRun (stack : List HLNode) : List HLNode → Except Int (List HLNode)
  | [] => Except.ok stack
  | seg :: segs =>
    match hlStep stack seg with
    | Except.error e => Except.error e
    | Except.ok stack' => hlRun stack' segs

/-- A concrete native-library oracle: parses succeed with handle 42 and
output bytes 123, 125 (the text of an empty JSON object), error
messages exist for every code, schema loads succeed with pointer 7. -/
def testLib : NativeLib where
  zx12_process_document := fun _ _ => (0, 42)
  zx12_process_from_memory := fun _ _ => (0, 42)
  zx12_process_document_with_schema := fun _ _ => (0, 42)
  zx12_process_from_memory_with_schema := fun _ _ => (0, 42)
  zx12_get_output := fun _ => some [123, 125]
  zx12_get_error_message := fun c => some ("error code " ++ toString c)
  zx12_load_schema := fun _ => (0, some 7)

/-- A concrete native-library oracle whose parse entry points report
SUCCESS but whose zx12_get_output returns NULL, and whose schema load
fails with SCHEMA_LOAD_ERROR. -/
def testLibNullOut : NativeLib where
  zx12_process_document := fun _ _ => (0, 42)
  zx12_process_from_memory := fun _ _ => (0, 42)
  zx12_process_document_with_schema := fun _ _ => (0, 42)
  zx12_process_from_memory_with_schema := fun _ _ => (0, 42)
  zx12_get_output := fun _ => none
  zx12_get_error_message := fun c => some ("error code " ++ toString c)
  zx12_load_schema := fun _ => (5, none)

/-- A concrete native-library oracle whose error message for every code
is the empty (non-NULL) string, and whose get_output yields an empty
byte string. -/
def testLibEmpty : NativeLib where
  zx12_process_document := fun _ _ => (0, 42)
  zx12_process_from_memory := fun _ _ => (0, 42)
  zx12_process_document_with_schema := fun _ _ => (0, 42)
  zx12_process_from_memory_with_schema := fun _ _ => (0, 42)
  zx12_get_output := fun _ => some []
  zx12_get_error_message := fun _ => some ""
  zx12_load_schema := fun _ => (0, some 7)

/-- A concrete Python-runtime oracle: decoding yields the text of an
empty JSON object, JSON parsing yields the empty object value. -/
def testRt : PyRuntime where
  utf8Encode := fun s => [s.length]
  utf8Decode := fun _ => some "\x7b\x7d"
  jsonLoads := fun _ => some (JsonVal.jobj [])

/-- A concrete stateful native-library oracle over state Nat whose
results ignore the state (pure), counting calls in the state. -/
def testLibSt : NativeLibSt Nat where
  zx12_process_from_memory_with_schema := fun st _ _ => (st + 1, 0, 42)
  zx12_get_output := fun st _ => (st + 1, some [123, 125])
  zx12_free_output := fun st _ => st + 1
  zx12_get_error_message := fun st c =>
    (st + 1, some ("error code " ++ toString c))

/-! Helper lemmas about the shared output block and the parse methods. -/

theorem outputPhase_snd (lib : NativeLib) (rt : PyRuntime) (h : Nat) :
    (ZX12.outputPhase lib rt h).2 = [h] := rfl

theorem outputPhase_ok (lib : NativeLib) (rt : PyRuntime) (h : Nat)
    (v : JsonVal) (hv : ZX12.outputOk lib rt h v) :
    (ZX12.outputPhase lib rt h).1 = Outcome.ret v := by
  obtain ⟨bs, jd, hg, hne, hdec, hload⟩ := hv
  simp only [ZX12.outputPhase, hg, hdec, hload]
  simp [List.isEmpty_iff, hne]

theorem outputPhase_err (lib : NativeLib) (rt : PyRuntime) (h : Nat)
    (m : String) (hm : (ZX12.outputPhase lib rt h).1 = Outcome.zx12Err m) :
    m = "Failed to get output" := by
  simp only [ZX12.outputPhase] at hm
  rcases hg : lib.zx12_get_output h with _ | bs
  · rw [hg] at hm
    exact (Outcome.zx12Err.inj hm).symm
  · rw [hg] at hm
    dsimp only at hm
    by_cases hbs : bs.isEmpty = true
    · rw [if_pos hbs] at hm
      exact (Outcome.zx12Err.inj hm).symm
    · rw [if_neg hbs] at hm
      rcases hd : rt.utf8Decode bs with _ | jd
      · simp [hd] at hm
      · rcases hl : rt.jsonLoads jd with _ | v
        · simp [hd, hl] at hm
        · simp [hd, hl] at hm

theorem outputPhase_falsy (lib : NativeLib) (rt : PyRuntime) (h : Nat)
    (hg : lib.zx12_get_output h = none ∨ lib.zx12_get_output h = some []) :
    (ZX12.outputPhase lib rt h).1 = Outcome.zx12Err "Failed to get output" := by
  rcases hg with hg | hg <;> simp [ZX12.outputPhase, hg]

theorem process_file_eq_success (lib : NativeLib) (rt : PyRuntime)
    (fp sp : String) (h : Nat)
    (hr : lib.zx12_process_document fp sp = (ZX12.SUCCESS, h)) :
    ZX12.process_file lib rt fp sp =
      { outcome := (ZX12.outputPhase lib rt h).1, parseCalled := true,
        frees := [h] } := by
  simp [ZX12.process_file, hr, outputPhase_snd]

theorem process_file_eq_failure (lib : NativeLib) (rt : PyRuntime)
    (fp sp : String) (code : Int) (h : Nat)
    (hr : lib.zx12_process_document fp sp = (code, h))
    (hc : code ≠ ZX12.SUCCESS) :
    ZX12.process_file lib rt fp sp =
      { outcome := Outcome.zx12Err (ZX12._get_error lib code),
        parseCalled := true, frees := [] } := by
  simp [ZX12.process_file, hr, hc]

theorem process_file_with_schema_eq_success (lib : NativeLib)
    (rt : PyRuntime) (fp : String) (sch : SchemaObj) (h : Nat)
    (hfree : sch._freed = false)
    (hr : lib.zx12_process_document_with_schema fp sch.schema_ptr =
      (ZX12.SUCCESS, h)) :
    ZX12.process_file_with_schema lib rt fp sch =
      { outcome := (ZX12.outputPhase lib rt h).1, parseCalled := true,
        frees := [h] } := by
  simp [ZX12.process_file_with_schema, hfree, hr, outputPhase_snd]

theorem process_file_with_schema_eq_failure (lib : NativeLib)
    (rt : PyRuntime) (fp : String) (sch : SchemaObj) (code : Int) (h : Nat)
    (hfree : sch._freed = false)
    (hr : lib.zx12_process_document_with_schema fp sch.schema_ptr =
      (code, h))
    (hc : code ≠ ZX12.SUCCESS) :
    ZX12.process_file_with_schema lib rt fp sch =
      { outcome := Outcome.zx12Err (ZX12._get_error lib code),
        parseCalled := true, frees := [] } := by
  simp [ZX12.process_file_with_schema, hfree, hr, hc]

theorem process_string_with_schema_eq_success (lib : NativeLib)
    (rt : PyRuntime) (d : String) (sch : SchemaObj) (h : Nat)
    (hfree : sch._freed = false)
    (hr : lib.zx12_process_from_memory_with_schema (rt.utf8Encode d)
      sch.schema_ptr = (ZX12.SUCCESS, h)) :
    ZX12.process_string_with_schema lib rt d sch =
      { outcome := (ZX12.outputPhase lib rt h).1, parseCalled := true,
        frees := [h] } := by
  simp [ZX12.process_string_with_schema, hfree, hr, outputPhase_snd]

theorem process_string_with_schema_eq_failure (lib : NativeLib)
    (rt : PyRuntime) (d : String) (sch : SchemaObj) (code : Int) (h : Nat)
    (hfree : sch._freed = false)
    (hr : lib.zx12_process_from_memory_with_schema (rt.utf8Encode d)
      sch.schema_ptr = (code, h))
    (hc : code ≠ ZX12.SUCCESS) :
    ZX12.process_string_with_schema lib rt d sch =
      { outcome := Outcome.zx12Err (ZX12._get_error lib code),
        parseCalled := true, frees := [] } := by
  simp [ZX12.process_string_with_schema, hfree, hr, hc]

theorem process_string_eq_success (lib : NativeLib) (rt : PyRuntime)
    (d sp : String) (h : Nat)
    (hr : lib.zx12_process_from_memory (rt.utf8Encode d) sp =
      (ZX12.SUCCESS, h)) :
    ZX12.process_string lib rt d sp =
      { outcome := (ZX12.outputPhase lib rt h).1, parseCalled := true,
        frees := [h] } := by
  simp [ZX12.process_string, hr, outputPhase_snd]

theorem process_string_eq_failure (lib : NativeLib) (rt : PyRuntime)
    (d sp : String) (code : Int) (h : Nat)
    (hr : lib.zx12_process_from_memory (rt.utf8Encode d) sp = (code, h))
    (hc : code ≠ ZX12.SUCCESS) :
    ZX12.process_string lib rt d sp =
      { outcome := Outcome.zx12Err (ZX12._get_error lib code),
        parseCalled := true, frees := [] } := by
  simp [ZX12.process_string, hr, hc]

/-- C1: the error-code constants of class ZX12 are the stable numeric
contract: SUCCESS is 0, OUT_OF_MEMORY is 1, INVALID_ISA is 2,
FILE_NOT_FOUND is 3, PARSE_ERROR is 4, SCHEMA_LOAD_ERROR is 5,
UNKNOWN_HL_LEVEL is 6, PATH_CONFLICT is 7, INVALID_ARGUMENT is 8 and
UNKNOWN_ERROR is 99. -/
theorem c1_error_code_contract :
    ZX12.SUCCESS = 0 ∧ ZX12.OUT_OF_MEMORY = 1 ∧ ZX12.INVALID_ISA = 2 ∧
    ZX12.FILE_NOT_FOUND = 3 ∧ ZX12.PARSE_ERROR = 4 ∧
    ZX12.SCHEMA_LOAD_ERROR = 5 ∧ ZX12.UNKNOWN_HL_LEVEL = 6 ∧
    ZX12.PATH_CONFLICT = 7 ∧ ZX12.INVALID_ARGUMENT = 8 ∧
    ZX12.UNKNOWN_ERROR = 99 := by
  refine ⟨rfl, rfl, rfl, rfl, rfl, rfl, rfl, rfl, rfl, rfl⟩

/-- C2: in each of the four parse methods, once the native parse call
has returned SUCCESS with an output handle, zx12_free_output is invoked
on that handle exactly once on every exit path — the frees log equals
the one-element list of the handle, whatever the runtime oracles do on
the output-retrieval, decoding and JSON-parsing steps. -/
theorem c2_free_output_exactly_once (lib : NativeLib) (rt : PyRuntime) :
    (∀ fp sp h, lib.zx12_process_document fp sp = (ZX12.SUCCESS, h) →
      (ZX12.process_file lib rt fp sp).frees = [h]) ∧
    (∀ fp sch h, sch._freed = false →
      lib.zx12_process_document_with_schema fp sch.schema_ptr =
        (ZX12.SUCCESS, h) →
      (ZX12.process_file_with_schema lib rt fp sch).frees = [h]) ∧
    (∀ d sch h, sch._freed = false →
      lib.zx12_process_from_memory_with_schema (rt.utf8Encode d)
        sch.schema_ptr = (ZX12.SUCCESS, h) →
      (ZX12.process_string_with_schema lib rt d sch).frees = [h]) ∧
    (∀ d sp h, lib.zx12_process_from_memory (rt.utf8Encode d) sp =
        (ZX12.SUCCESS, h) →
      (ZX12.process_string lib rt d sp).frees = [h]) := by
  refine ⟨fun fp sp h hr => ?_, fun fp sch h hfree hr => ?_,
    fun d sch h hfree hr => ?_, fun d sp h hr => ?_⟩
  · rw [process_file_eq_success lib rt fp sp h hr]
  · rw [process_file_with_schema_eq_success lib rt fp sch h hfree hr]
  · rw [process_string_with_schema_eq_success lib rt d sch h hfree hr]
  · rw [process_string_eq_success lib rt d sp h hr]

/-- Witness for C2 at the concrete oracles: the native parse reports
SUCCESS with handle 42 and process_file frees exactly handle 42. -/
theorem c2_free_output_exactly_once_witness :
    (ZX12.process_file testLib testRt "doc.x12" "schema.json").frees =
      [42] :=
  (c2_free_output_exactly_once testLib testRt).1 "doc.x12" "schema.json"
    42 rfl

theorem free_sets_freed (s : SchemaObj) (hptr : s.schema_ptr.isSome) :
    ((Schema.free s).1)._freed = true := by
  cases hb : s._freed
  · simp [Schema.free, hb, hptr]
  · simp [Schema.free, hb]

/-- Counterexample to C3 as stated: a Schema object whose pointer is
NULL (reachable when the native load reports SUCCESS without writing a
pointer, or by constructing Schema directly).  free() on it is a no-op
that never sets _freed, so a later parse call is not rejected and the
native parse entry point is invoked. -/
theorem c3_counterexample :
    (Schema.free { schema_ptr := none, _freed := false }).1 =
      { schema_ptr := none, _freed := false } ∧
    (ZX12.process_file_with_schema testLib testRt "doc.x12"
      (Schema.free { schema_ptr := none, _freed := false }).1).parseCalled
      = true := by
  exact ⟨rfl, rfl⟩

/-- C3 amended: for every Schema object holding a non-null pointer, once
free() has been called on it, every subsequent call to
process_file_with_schema or process_string_with_schema with that schema
raises ZX12Error before the native parse entry point is invoked. -/
theorem c3_freed_schema_rejected (lib : NativeLib) (rt : PyRuntime)
    (s : SchemaObj) (hptr : s.schema_ptr.isSome) (fp d : String) :
    ZX12.process_file_with_schema lib rt fp (Schema.free s).1 =
      { outcome := Outcome.zx12Err "Schema has already been freed",
        parseCalled := false, frees := [] } ∧
    ZX12.process_string_with_schema lib rt d (Schema.free s).1 =
      { outcome := Outcome.zx12Err "Schema has already been freed",
        parseCalled := false, frees := [] } := by
  have hf := free_sets_freed s hptr
  constructor
  · simp [ZX12.process_file_with_schema, hf]
  · simp [ZX12.process_string_with_schema, hf]

/-- Witness for C3 amended: a live schema with pointer 7 is freed and
the next process_file_with_schema call is rejected without parsing. -/
theorem c3_freed_schema_rejected_witness :
    ZX12.process_file_with_schema testLib testRt "doc.x12"
      (Schema.free { schema_ptr := some 7, _freed := false }).1 =
      { outcome := Outcome.zx12Err "Schema has already been freed",
        parseCalled := false, frees := [] } :=
  (c3_freed_schema_rejected testLib testRt
    { schema_ptr := some 7, _freed := false } rfl "doc.x12" "d").1

/-- Counterexample to C4 as stated: with a native library that reports
SUCCESS but yields a NULL output string, process_file raises ZX12Error
even though the native parse call returned SUCCESS, so ZX12Error is not
raised only on non-SUCCESS codes. -/
theorem c4_counterexample :
    (testLibNullOut.zx12_process_document "doc.x12" "schema.json").1 =
      ZX12.SUCCESS ∧
    (ZX12.process_file testLibNullOut testRt "doc.x12"
      "schema.json").outcome = Outcome.zx12Err "Failed to get output" := by
  exact ⟨rfl, rfl⟩

/-- C4 amended: every parse method raises ZX12Error carrying the
message from _get_error whenever the native parse call returns a code
different from SUCCESS; on SUCCESS with retrievable output it returns
the JSON-decoded value; and on SUCCESS the only ZX12Error it can raise
is the output-retrieval failure with message Failed to get output. -/
theorem c4_error_raising_amended (lib : NativeLib) (rt : PyRuntime) :
    ((∀ fp sp code h, lib.zx12_process_document fp sp = (code, h) →
      code ≠ ZX12.SUCCESS →
      ZX12.process_file lib rt fp sp =
        { outcome := Outcome.zx12Err (ZX12._get_error lib code),
          parseCalled := true, frees := [] }) ∧
    (∀ fp sp h v, lib.zx12_process_document fp sp = (ZX12.SUCCESS, h) →
      ZX12.outputOk lib rt h v →
      (ZX12.process_file lib rt fp sp).outcome = Outcome.ret v) ∧
    (∀ fp sp h m, lib.zx12_process_document fp sp = (ZX12.SUCCESS, h) →
      (ZX12.process_file lib rt fp sp).outcome = Outcome.zx12Err m →
      m = "Failed to get output")) ∧
    ((∀ fp sch code h, sch._freed = false →
      lib.zx12_process_document_with_schema fp sch.schema_ptr = (code, h) →
      code ≠ ZX12.SUCCESS →
      ZX12.process_file_with_schema lib rt fp sch =
        { outcome := Outcome.zx12Err (ZX12._get_error lib code),
          parseCalled := true, frees := [] }) ∧
    (∀ fp sch h v, sch._freed = false →
      lib.zx12_process_document_with_schema fp sch.schema_ptr =
        (ZX12.SUCCESS, h) →
      ZX12.outputOk lib rt h v →
      (ZX12.process_file_with_schema lib rt fp sch).outcome =
        Outcome.ret v) ∧
    (∀ fp sch h m, sch._freed = false →
      lib.zx12_process_document_with_schema fp sch.schema_ptr =
        (ZX12.SUCCESS, h) →
      (ZX12.process_file_with_schema lib rt fp sch).outcome =
        Outcome.zx12Err m →
      m = "Failed to get output")) ∧
    ((∀ d sch code h, sch._freed = false →
      lib.zx12_process_from_memory_with_schema (rt.utf8Encode d)
        sch.schema_ptr = (code, h) →
      code ≠ ZX12.SUCCESS →
      ZX12.process_string_with_schema lib rt d sch =
        { outcome := Outcome.zx12Err (ZX12._get_error lib code),
          parseCalled := true, frees := [] }) ∧
    (∀ d sch h v, sch._freed = false →
      lib.zx12_process_from_memory_with_schema (rt.utf8Encode d)
        sch.schema_ptr = (ZX12.SUCCESS, h) →
      ZX12.outputOk lib rt h v →
      (ZX12.process_string_with_schema lib rt d sch).outcome =
        Outcome.ret v) ∧
    (∀ d sch h m, sch._freed = false →
      lib.zx12_process_from_memory_with_schema (rt.utf8Encode d)
        sch.schema_ptr = (ZX12.SUCCESS, h) →
      (ZX12.process_string_with_schema lib rt d sch).outcome =
        Outcome.zx12Err m →
      m = "Failed to get output")) ∧
    ((∀ d sp code h, lib.zx12_process_from_memory (rt.utf8Encode d) sp =
        (code, h) →
      code ≠ ZX12.SUCCESS →
      ZX12.process_string lib rt d sp =
        { outcome := Outcome.zx12Err (ZX12._get_error lib code),
          parseCalled := true, frees := [] }) ∧
    (∀ d sp h v, lib.zx12_process_from_memory (rt.utf8Encode d) sp =
        (ZX12.SUCCESS, h) →
      ZX12.outputOk lib rt h v →
      (ZX12.process_string lib rt d sp).outcome = Outcome.ret v) ∧
    (∀ d sp h m, lib.zx12_process_from_memory (rt.utf8Encode d) sp =
        (ZX12.SUCCESS, h) →
      (ZX12.process_string lib rt d sp).outcome = Outcome.zx12Err m →
      m = "Failed to get output")) := by
  refine ⟨⟨fun fp sp code h hr hc => ?_, fun fp sp h v hr hv => ?_,
      fun fp sp h m hr hm => ?_⟩,
    ⟨fun fp sch code h hfree hr hc => ?_, fun fp sch h v hfree hr hv => ?_,
      fun fp sch h m hfree hr hm => ?_⟩,
    ⟨fun d sch code h hfree hr hc => ?_, fun d sch h v hfree hr hv => ?_,
      fun d sch h m hfree hr hm => ?_⟩,
    ⟨fun d sp code h hr hc => ?_, fun d sp h v hr hv => ?_,
      fun d sp h m hr hm => ?_⟩⟩
  · exact process_file_eq_failure lib rt fp sp code h hr hc
  · rw [process_file_eq_success lib rt fp sp h hr]
    exact outputPhase_ok lib rt h v hv
  · rw [process_file_eq_success lib rt fp sp h hr] at hm
    exact outputPhase_err lib rt h m hm
  · exact process_file_with_schema_eq_failure lib rt fp sch code h hfree
      hr hc
  · rw [process_file_with_schema_eq_success lib rt fp sch h hfree hr]
    exact outputPhase_ok lib rt h v hv
  · rw [process_file_with_schema_eq_success lib rt fp sch h hfree hr] at hm
    exact outputPhase_err lib rt h m hm
  · exact process_string_with_schema_eq_failure lib rt d sch code h hfree
      hr hc
  · rw [process_string_with_schema_eq_success lib rt d sch h hfree hr]
    exact outputPhase_ok lib rt h v hv
  · rw [process_string_with_schema_eq_success lib rt d sch h hfree hr]
      at hm
    exact outputPhase_err lib rt h m hm
  · exact process_string_eq_failure lib rt d sp code h hr hc
  · rw [process_string_eq_success lib rt d sp h hr]
    exact outputPhase_ok lib rt h v hv
  · rw [process_string_eq_success lib rt d sp h hr] at hm
    exact outputPhase_err lib rt h m hm

/-- Witness for C4 amended: on the concrete oracles the native parse
reports SUCCESS and process_file returns the decoded JSON object. -/
theorem c4_error_raising_amended_witness :
    (ZX12.process_file testLib testRt "doc.x12" "schema.json").outcome =
      Outcome.ret (JsonVal.jobj []) :=
  (c4_error_raising_amended testLib testRt).1.2.1 "doc.x12" "schema.json"
    42 (JsonVal.jobj [])
    rfl ⟨[123, 125], "\x7b\x7d", rfl, by decide, rfl, rfl⟩

/-- C5: load_schema raises ZX12Error carrying the native cause string
whenever zx12_load_schema returns a code different from SUCCESS, and
never returns a Schema object in that case; on SUCCESS it returns a
Schema whose pointer is the one the library wrote and whose freed flag
is initially false. -/
theorem c5_load_schema_contract (lib : NativeLib) :
    (∀ sp code ptr, lib.zx12_load_schema sp = (code, ptr) →
      code ≠ ZX12.SUCCESS →
      ZX12.load_schema lib sp =
        Except.error
          ("Failed to load schema: " ++ ZX12._get_error lib code) ∧
      ∀ s, ZX12.load_schema lib sp ≠ Except.ok s) ∧
    (∀ sp ptr, lib.zx12_load_schema sp = (ZX12.SUCCESS, ptr) →
      ZX12.load_schema lib sp =
        Except.ok { schema_ptr := ptr, _freed := false }) := by
  constructor
  · intro sp code ptr hr hc
    have he : ZX12.load_schema lib sp =
        Except.error
          ("Failed to load schema: " ++ ZX12._get_error lib code) := by
      simp [ZX12.load_schema, hr, hc]
    refine ⟨he, fun s hok => ?_⟩
    rw [he] at hok
    cases hok
  · intro sp ptr hr
    simp [ZX12.load_schema, hr]

/-- Witness for C5: on the failing oracle the native load returns code
5 and load_schema produces the error with the native cause text. -/
theorem c5_load_schema_contract_witness :
    ZX12.load_schema testLibNullOut "schema.json" =
      Except.error
        ("Failed to load schema: " ++
          ZX12._get_error testLibNullOut 5) :=
  ((c5_load_schema_contract testLibNullOut).1 "schema.json" 5 none rfl
    (by decide)).1

/-- C6: process_string_with_schema is deterministic.  Over the stateful
native oracle, if every native entry point is pure (its non-state
result does not depend on the library state), then two calls with the
same input string and the same schema handle return equal results,
whatever library states the two calls start from. -/
theorem c6_process_string_with_schema_deterministic {σ : Type}
    (lib : NativeLibSt σ) (rt : PyRuntime)
    (hp : ∀ s t bs p,
      (lib.zx12_process_from_memory_with_schema s bs p).2 =
        (lib.zx12_process_from_memory_with_schema t bs p).2)
    (hg : ∀ s t h,
      (lib.zx12_get_output s h).2 = (lib.zx12_get_output t h).2)
    (he : ∀ s t c,
      (lib.zx12_get_error_message s c).2 =
        (lib.zx12_get_error_message t c).2)
    (st1 st2 : σ) (d : String) (sch : SchemaObj) :
    (ZX12.process_string_with_schemaSt lib rt st1 d sch).2 =
      (ZX12.process_string_with_schemaSt lib rt st2 d sch).2 := by
  by_cases hf : sch._freed = true
  · simp [ZX12.process_string_with_schemaSt, hf]
  · rcases h1 : lib.zx12_process_from_memory_with_schema st1
      (rt.utf8Encode d) sch.schema_ptr with ⟨s1, c1, o1⟩
    rcases h2 : lib.zx12_process_from_memory_with_schema st2
      (rt.utf8Encode d) sch.schema_ptr with ⟨s2, c2, o2⟩
    have e1 := hp st1 st2 (rt.utf8Encode d) sch.schema_ptr
    rw [h1, h2] at e1
    injection e1 with ec eo
    subst ec
    subst eo
    by_cases hc : c1 = ZX12.SUCCESS
    · have e3 := hg s1 s2 o1
      rcases g1 : lib.zx12_get_output s1 o1 with ⟨u1, gb1⟩
      rcases g2 : lib.zx12_get_output s2 o1 with ⟨u2, gb2⟩
      rw [g1, g2] at e3
      dsimp only at e3
      subst e3
      simp [ZX12.process_string_with_schemaSt, hf, h1, h2, hc, g1, g2]
    · have e2 := he s1 s2 c1
      rcases m1 : lib.zx12_get_error_message s1 c1 with ⟨t1, mm1⟩
      rcases m2 : lib.zx12_get_error_message s2 c1 with ⟨t2, mm2⟩
      rw [m1, m2] at e2
      dsimp only at e2
      subst e2
      simp only [ZX12.process_string_with_schemaSt, hf, h1, h2, hc,
        ZX12._get_errorSt, m1, m2, if_false, Bool.false_eq_true,
        if_neg, ite_not]
      cases mm1 <;> simp [hc]

/-- Witness for C6: the pure counting oracle run from states 0 and 99
returns the same result for the same input and live schema. -/
theorem c6_process_string_with_schema_deterministic_witness :
    (ZX12.process_string_with_schemaSt testLibSt testRt 0 "ISA*00"
        { schema_ptr := some 7, _freed := false }).2 =
      (ZX12.process_string_with_schemaSt testLibSt testRt 99 "ISA*00"
        { schema_ptr := some 7, _freed := false }).2 :=
  c6_process_string_with_schema_deterministic testLibSt testRt
    (fun _ _ _ _ => rfl) (fun _ _ _ => rfl) (fun _ _ _ => rfl)
    0 99 "ISA*00" { schema_ptr := some 7, _freed := false }

theorem popUntil_eq_none (p : HLNode → Bool) (l : List HLNode)
    (h : ∀ n ∈ l, p n = false) : popUntil p l = none := by
  induction l with
  | nil => rfl
  | cons a l ih =>
    have ha : p a = false := h a (by simp)
    simp only [popUntil, ha, if_neg]
    exact ih fun n hn => h n (by simp [hn])

theorem popUntil_eq_some (p : HLNode → Bool) (pre : List HLNode)
    (top : HLNode) (post : List HLNode)
    (hpre : ∀ n ∈ pre, p n = false) (htop : p top = true) :
    popUntil p (pre ++ top :: post) = some (top :: post) := by
  induction pre with
  | nil => simp [popUntil, htop]
  | cons a pre ih =>
    have ha : p a = false := hpre a (by simp)
    simp only [List.cons_append, popUntil, ha, if_neg]
    exact ih fun n hn => hpre n (by simp [hn])

/-- C7 (spec-modelled hierarchical parser): an HL segment whose
declared parent id matches no node on the hierarchy stack makes the
parse fail with UnknownHierarchyLevel, the code surfaced by the binding
as ZX12.UNKNOWN_HL_LEVEL; and when the parent does resolve, the parser
pops exactly the nodes above the most recent node carrying that id and
records it as the parent, so the new node's recorded parent id is the
most recent prior HL id satisfying the declared relationship. -/
theorem c7_hl_parent_resolution (stack : List HLNode) (seg : HLNode)
    (pid : String) (hpar : seg.parentId = some pid) :
    ((∀ n ∈ stack, n.id ≠ pid) →
      hlStep stack seg = Except.error ZX12.UNKNOWN_HL_LEVEL) ∧
    (∀ pre top post, stack = pre ++ top :: post → top.id = pid →
      (∀ n ∈ pre, n.id ≠ pid) →
      hlStep stack seg = Except.ok (seg :: top :: post)) := by
  constructor
  · intro hn
    have hnone : popUntil (fun n => n.id == pid) stack = none :=
      popUntil_eq_none _ _ fun n hm => by
        simpa using hn n hm
    simp [hlStep, hpar, hnone]
  · intro pre top post hstack htop hpre
    subst hstack
    have hsome : popUntil (fun n => n.id == pid) (pre ++ top :: post) =
        some (top :: post) :=
      popUntil_eq_some _ _ _ _
        (fun n hm => by simpa using hpre n hm) (by simp [htop])
    simp [hlStep, hpar, hsome]

/-- Witness for C7: a subscriber HL declaring parent id 1 resolves to
the billing-provider root node with id 1, which is pushed below it; a
parent id 9 matching nothing yields UnknownHierarchyLevel. -/
theorem c7_hl_parent_resolution_witness :
    hlStep [{ id := "1", parentId := none, levelCode := "20" }]
        { id := "2", parentId := some "1", levelCode := "22" } =
      Except.ok [{ id := "2", parentId := some "1", levelCode := "22" },
        { id := "1", parentId := none, levelCode := "20" }] ∧
    hlStep [{ id := "1", parentId := none, levelCode := "20" }]
        { id := "3", parentId := some "9", levelCode := "22" } =
      Except.error ZX12.UNKNOWN_HL_LEVEL := by
  constructor
  · exact (c7_hl_parent_resolution
      [{ id := "1", parentId := none, levelCode := "20" }]
      { id := "2", parentId := some "1", levelCode := "22" } "1" rfl).2
      [] { id := "1", parentId := none, levelCode := "20" } [] rfl rfl
      (by simp)
  · exact (c7_hl_parent_resolution
      [{ id := "1", parentId := none, levelCode := "20" }]
      { id := "3", parentId := some "9", levelCode := "22" } "9" rfl).1
      (by decide)

/-- Counterexample to C8 as stated: a native library whose message for
code 5 is the empty, non-NULL string.  The Python conditional tests
truthiness of the bytes, so _get_error does not return the decoded
message (the empty string) but the fallback text. -/
theorem c8_counterexample :
    testLibEmpty.zx12_get_error_message 5 = some "" ∧
    ZX12._get_error testLibEmpty 5 = "Unknown error 5" ∧
    ("Unknown error 5" : String) ≠ "" := by
  refine ⟨rfl, by decide, by decide⟩

/-- C8 amended: _get_error always returns a string; it returns the
decoded native message when that message is non-null and non-empty, and
the fallback text Unknown error code when the native call returns NULL
or an empty message. -/
theorem c8_get_error_amended (lib : NativeLib) (code : Int) :
    (∀ msg, lib.zx12_get_error_message code = some msg → msg ≠ "" →
      ZX12._get_error lib code = msg) ∧
    (lib.zx12_get_error_message code = none →
      ZX12._get_error lib code = "Unknown error " ++ toString code) ∧
    (lib.zx12_get_error_message code = some "" →
      ZX12._get_error lib code = "Unknown error " ++ toString code) := by
  refine ⟨fun msg hm hne => ?_, fun hm => ?_, fun hm => ?_⟩
  · have hemp : msg.isEmpty = false := by
      cases hb : msg.isEmpty
      · rfl
      · exact absurd ((String.isEmpty_iff msg).mp hb) hne
    simp [ZX12._get_error, hm, hemp]
  · simp [ZX12._get_error, hm]
  · unfold ZX12._get_error
    rw [hm]
    rfl

/-- Witness for C8 amended: a non-empty native message is returned
verbatim. -/
theorem c8_get_error_amended_witness :
    ZX12._get_error testLib 5 = "error code 5" :=
  (c8_get_error_amended testLib 5).1 "error code 5" rfl (by decide)

theorem schemaRun_dead (ops : List SchemaOp) :
    schemaRun { schema_ptr := none, _freed := true } ops =
      ({ schema_ptr := none, _freed := true }, 0) := by
  induction ops with
  | nil => rfl
  | cons op ops ih =>
    cases op <;> simp [schemaRun, schemaStep, Schema.free, ih]

/-- C9: across any sequence of free(), __del__ and __exit__ triggers,
zx12_free_schema runs at most once; an effective free leaves the object
with _freed set and a cleared pointer, and from that state every later
trigger is a no-op. -/
theorem c9_free_schema_at_most_once (s : SchemaObj)
    (ops : List SchemaOp) :
    (schemaRun s ops).2 ≤ 1 ∧
    (∀ s', Schema.free s = (s', 1) →
      s' = { schema_ptr := none, _freed := true } ∧
      ∀ more, schemaRun s' more = (s', 0)) := by
  constructor
  · induction ops generalizing s with
    | nil => simp [schemaRun]
    | cons op ops ih =>
      have hstep : schemaStep s op = Schema.free s := by
        cases op <;> rfl
      by_cases hc : s._freed = false ∧ s.schema_ptr.isSome = true
      · have h1 : Schema.free s =
            ({ schema_ptr := none, _freed := true }, 1) := by
          unfold Schema.free
          rw [if_pos hc]
        simp [schemaRun, hstep, h1, schemaRun_dead]
      · have h0 : Schema.free s = (s, 0) := by
          unfold Schema.free
          rw [if_neg hc]
        simpa [schemaRun, hstep, h0] using ih s
  · intro s' hfree
    by_cases hc : s._freed = false ∧ s.schema_ptr.isSome = true
    · have h1 : Schema.free s =
          ({ schema_ptr := none, _freed := true }, 1) := by
        unfold Schema.free
        rw [if_pos hc]
      rw [h1] at hfree
      injection hfree with e1 e2
      refine ⟨e1.symm, fun more => ?_⟩
      rw [← e1]
      exact schemaRun_dead more
    · have h0 : Schema.free s = (s, 0) := by
        unfold Schema.free
        rw [if_neg hc]
      rw [h0] at hfree
      injection hfree with e1 e2
      exact absurd e2 (by decide)

/-- Witness for C9: a live schema freed then destructed frees natively
at most once, and the dead state absorbs further triggers. -/
theorem c9_free_schema_at_most_once_witness :
    (schemaRun { schema_ptr := some 7, _freed := false }
      [SchemaOp.free, SchemaOp.del, SchemaOp.exitCtx]).2 ≤ 1 ∧
    schemaRun { schema_ptr := none, _freed := true } [SchemaOp.free] =
      ({ schema_ptr := none, _freed := true }, 0) :=
  ⟨(c9_free_schema_at_most_once { schema_ptr := some 7, _freed := false }
      [SchemaOp.free, SchemaOp.del, SchemaOp.exitCtx]).1,
    ((c9_free_schema_at_most_once
        { schema_ptr := some 7, _freed := false } []).2
      { schema_ptr := none, _freed := true } rfl).2 [SchemaOp.free]⟩

/-- C10: in every parse method, when the native parse reports SUCCESS
but zx12_get_output yields NULL or an empty byte string, the method
raises ZX12Error with message Failed to get output — the two cases are
indistinguishable at the Python interface, both ending in the same
raised error. -/
theorem c10_falsy_output_rejected (lib : NativeLib) (rt : PyRuntime) :
    (∀ fp sp h, lib.zx12_process_document fp sp = (ZX12.SUCCESS, h) →
      (lib.zx12_get_output h = none ∨ lib.zx12_get_output h = some []) →
      (ZX12.process_file lib rt fp sp).outcome =
        Outcome.zx12Err "Failed to get output") ∧
    (∀ fp sch h, sch._freed = false →
      lib.zx12_process_document_with_schema fp sch.schema_ptr =
        (ZX12.SUCCESS, h) →
      (lib.zx12_get_output h = none ∨ lib.zx12_get_output h = some []) →
      (ZX12.process_file_with_schema lib rt fp sch).outcome =
        Outcome.zx12Err "Failed to get output") ∧
    (∀ d sch h, sch._freed = false →
      lib.zx12_process_from_memory_with_schema (rt.utf8Encode d)
        sch.schema_ptr = (ZX12.SUCCESS, h) →
      (lib.zx12_get_output h = none ∨ lib.zx12_get_output h = some []) →
      (ZX12.process_string_with_schema lib rt d sch).outcome =
        Outcome.zx12Err "Failed to get output") ∧
    (∀ d sp h, lib.zx12_process_from_memory (rt.utf8Encode d) sp =
        (ZX12.SUCCESS, h) →
      (lib.zx12_get_output h = none ∨ lib.zx12_get_output h = some []) →
      (ZX12.process_string lib rt d sp).outcome =
        Outcome.zx12Err "Failed to get output") := by
  refine ⟨fun fp sp h hr hg => ?_, fun fp sch h hfree hr hg => ?_,
    fun d sch h hfree hr hg => ?_, fun d sp h hr hg => ?_⟩
  · rw [process_file_eq_success lib rt fp sp h hr]
    exact outputPhase_falsy lib rt h hg
  · rw [process_file_with_schema_eq_success lib rt fp sch h hfree hr]
    exact outputPhase_falsy lib rt h hg
  · rw [process_string_with_schema_eq_success lib rt d sch h hfree hr]
    exact outputPhase_falsy lib rt h hg
  · rw [process_string_eq_success lib rt d sp h hr]
    exact outputPhase_falsy lib rt h hg

/-- Witness for C10: SUCCESS paired with a NULL output string makes
process_string raise the output-retrieval ZX12Error. -/
theorem c10_falsy_output_rejected_witness :
    (ZX12.process_string testLibNullOut testRt "ISA*00" "837p.json").outcome
      = Outcome.zx12Err "Failed to get output" :=
  (c10_falsy_output_rejected testLibNullOut testRt).2.2.2 "ISA*00"
    "837p.json" 42 rfl (Or.inl rfl)
